import Mathlib

/-!
Shallow embedding of the `slackbot` package (`bot.go`): the event-dispatch
core of a Slack bot.  Pure quantities (typing-delay computation, message
length) are embedded as Lean functions; the receive loop `Bot.Run` is
embedded as a step function `processEvent` on an explicit `BotState`,
folded over a finite prefix of the inbound event stream by `run`.
Durations are modelled in nanoseconds (Go's `time.Duration` unit).
-/

namespace Slackbot

/-- Event kinds relevant to route registration (currently only message
routes exist, mirroring the router's kind filter). -/
inductive EventKind where
  | message
  | other
deriving DecidableEq

/-- Modelled from the spec: `Route` (the router source file is not under
src/; only its caller `Bot.Run` is).  A route is an immutable record of an
event-kind filter, a compiled text matcher, and a handler.  The matcher is
embedded as a boolean predicate on the event text; the handler as an
opaque identifier recorded when invoked. -/
structure Route where
  kind : EventKind
  matcher : String → Bool
  handler : Nat

/-- Modelled from the spec: a route matches an event when the event kind
equals the route's kind filter AND the route's pattern matches the event
text. -/
def routeMatches (r : Route) (k : EventKind) (text : String) : Bool :=
  (r.kind == k) && r.matcher text

/-- Modelled from the spec: `SimpleRouter.Match` iterates routes in
registration order and selects the first whose kind and pattern both match
the event; returns the matched route, or none when no route matches. -/
def Match (routes : List Route) (k : EventKind) (text : String) : Option Route :=
  match routes with
  | [] => none
  | r :: rs => if routeMatches r k text then some r else Match rs k text

/-- Payload accepted by `Type` / `msgLen` (Go `interface{}`).  An
attachment list is abstracted by the length of its debug-style
serialization (`len(fmt.Sprintf("%#v", m))` in the source; the `fmt`
serializer itself is external to this repository).  Any other payload is
unsupported and carries arbitrary content. -/
inductive Payload where
  | str (s : String)
  | attachments (serializedLen : Nat)
  | unsupported (content : String)

/-- `msgLen` from bot.go: length of string payloads (Go `len`, i.e. byte
length) or of the serialized attachment list; unsupported types return 0. -/
def msgLen (msg : Payload) : Nat :=
  match msg with
  | .str m => m.utf8ByteSize
  | .attachments n => n
  | .unsupported _ => 0

/-- `maxTypingSleepMs` from bot.go: `time.Millisecond * 2000`, in
nanoseconds. -/
def maxTypingSleepNs : Nat := 2000000000

/-- Two's-complement wraparound of int64 arithmetic: Go's `time.Duration`
is an int64, and Go defines signed-integer overflow as wraparound into
the range [-2^63, 2^63). -/
def wrapInt64 (x : Int) : Int := (x + 2 ^ 63) % 2 ^ 64 - 2 ^ 63

/-- The sleep duration computed by `Bot.Type` in bot.go, in nanoseconds:
`time.Minute * time.Duration(msgLen) / 3000` evaluated in Go's wrapping
int64 `time.Duration` arithmetic (the quotient cannot overflow again, so
no wrap is needed after the division, which truncates toward zero as in
Go), then clamped to `maxTypingSleepMs` when it exceeds it.  For
`msgLen >= 153722868` the product wraps negative, so the result can be
negative. -/
def typeSleepNs (msg : Payload) : Int :=
  let d := (wrapInt64 (60000000000 * wrapInt64 (msgLen msg : Int))).tdiv 3000
  if d > (maxTypingSleepNs : Int) then (maxTypingSleepNs : Int) else d

/-- The time actually slept by `time.Sleep` in `Bot.Type`: a negative or
zero duration returns immediately, so the slept time is the computed
duration clamped below at 0. -/
def typeSleptNs (msg : Payload) : Int := max 0 (typeSleepNs msg)

/-- The sleep performed by `Bot.ReplyWithAttachments` in bot.go: when
typing is enabled it calls `b.Type(evt, "attachment")` — the fixed
placeholder string, not the attachment list — so the slept duration is
`typeSleepNs` of that placeholder.  The attachment list (abstracted by its
serialized length) is received but never passed to `Type`. -/
def replyWithAttachmentsSleepNs (attachmentsSerializedLen : Nat) (typing : Bool) : Int :=
  if typing then typeSleepNs (.str "attachment") else 0

/-- Inbound RTM events, as classified by the `switch` in `Bot.Run`:
`ConnectedEvent` (carrying the bot user's ID, name and connection count),
`MessageEvent` (carrying channel, sender user-ID field `user`, sender
display-name field `username`, and text), `InvalidAuthEvent`, an `error`
value, and anything else. -/
inductive Event where
  | connected (userID userName : String) (connectionCount : Nat)
  | message (channel user username text : String)
  | invalidAuth
  | transportError (msg : String)
  | other

/-- Lines printed by the loop (`fmt.Printf` calls), kept abstract. -/
inductive LogEntry where
  | connectedLog (userID userName : String) (connectionCount : Nat)
  | invalidAuthLog
  | errorLog (msg : String)
deriving DecidableEq

/-- State of the `Bot` engine plus instrumentation of the receive loop:
the registered routes, the bot identity fields `botUserID` and
`botUserName`, whether `break LOOP` has run, the message events on which
`Match` was invoked (sender user-ID and text), the handlers invoked, and
the printed log. -/
structure BotState where
  routes : List Route
  botUserID : String
  botUserName : String
  terminated : Bool
  matchCalls : List (String × String)
  handlerRuns : List Nat
  log : List LogEntry

/-- `Bot.BotUserID` accessor from bot.go. -/
def BotUserID (b : BotState) : String := b.botUserID

/-- `Bot.BotUserName` accessor from bot.go. -/
def BotUserName (b : BotState) : String := b.botUserName

/-- `Bot.setBotID` from bot.go. -/
def setBotID (b : BotState) (i : String) : BotState := { b with botUserID := i }

/-- `Bot.setBotName` from bot.go. -/
def setBotName (b : BotState) (name : String) : BotState := { b with botUserName := name }

/-- One iteration of the `switch` in `Bot.Run`:
Connected stores identity and logs; a Message whose `ev.User` equals the
stored `botUserID` or `botUserName` is suppressed (`continue LOOP`),
otherwise `Match` is invoked and, on a match, the handler runs;
InvalidAuth logs and terminates (`break LOOP`); an error value is logged
and the loop continues; other events are ignored. -/
def processEvent (st : BotState) (e : Event) : BotState :=
  match e with
  | .connected userID userName connectionCount =>
      let st := { st with log := st.log ++ [.connectedLog userID userName connectionCount] }
      setBotName (setBotID st userID) userName
  | .message _channel user _username text =>
      if st.botUserID == user || st.botUserName == user then st
      else
        let st1 := { st with matchCalls := st.matchCalls ++ [(user, text)] }
        match Match st1.routes .message text with
        | some r => { st1 with handlerRuns := st1.handlerRuns ++ [r.handler] }
        | none => st1
  | .invalidAuth =>
      { st with log := st.log ++ [.invalidAuthLog], terminated := true }
  | .transportError m =>
      { st with log := st.log ++ [.errorLog m] }
  | .other => st

/-- The receive loop of `Bot.Run`, folded over a finite prefix of the
inbound event stream; once `break LOOP` has run no further event is
processed. -/
def run (st : BotState) (evs : List Event) : BotState :=
  match evs with
  | [] => st
  | e :: es => if st.terminated then st else run (processEvent st e) es

/-- A fresh bot engine as built by `New`: no identity recorded yet, loop
not yet terminated, no instrumentation recorded. -/
def initialState (routes : List Route) : BotState :=
  { routes := routes, botUserID := "", botUserName := "", terminated := false,
    matchCalls := [], handlerRuns := [], log := [] }

/-- First example route of the spec's ordering scenario: pattern `"hi"`
(full-text search, instantiated here as a prefix match), handler 1. -/
def routeHi : Route := ⟨.message, fun s => "hi".data.isPrefixOf s.data, 1⟩

/-- Second example route of the spec's ordering scenario: pattern
`"hi there"`, handler 2. -/
def routeHiThere : Route := ⟨.message, fun s => "hi there".data.isPrefixOf s.data, 2⟩

/-- A concrete connected bot state used by witnesses. -/
def exSt : BotState :=
  { routes := [routeHi, routeHiThere], botUserID := "U123", botUserName := "bot1",
    terminated := false, matchCalls := [], handlerRuns := [], log := [] }

/-- Once the loop has terminated, no further buffered event changes the
state. -/
theorem run_of_terminated (st : BotState) (evs : List Event)
    (h : st.terminated = true) : run st evs = st := by
  cases evs with
  | nil => rfl
  | cons e es => simp [run, h]

/-- An int64 value already in range is unchanged by wraparound. -/
theorem wrapInt64_eq_self (x : Int) (h1 : -(2 ^ 63) ≤ x) (h2 : x < 2 ^ 63) :
    wrapInt64 x = x := by
  unfold wrapInt64
  omega

/-- Byte length of the all-`a` string of `n` characters, proved by
induction so that huge strings need not be evaluated. -/
theorem utf8ByteSize_replicate (n : Nat) :
    (String.mk (List.replicate n 'a')).utf8ByteSize = n := by
  have hsize : Char.utf8Size 'a' = 1 := rfl
  induction n with
  | zero => rfl
  | succ k ih =>
      simp only [List.replicate, String.utf8ByteSize, String.utf8ByteSize.go, hsize] at ih ⊢
      omega

/-- Below the int64 overflow threshold the wrapping computation of `Type`
agrees with the exact clamped formula. -/
theorem typeSleepNs_eq_of_no_overflow (p : Payload)
    (h : 60000000000 * msgLen p < 2 ^ 63) :
    typeSleepNs p = ((min (60000000000 * msgLen p / 3000) 2000000000 : Nat) : Int) := by
  have hL : msgLen p < 2 ^ 63 := by omega
  have hw1 : wrapInt64 (msgLen p : Int) = (msgLen p : Int) := by
    apply wrapInt64_eq_self <;> omega
  have hw2 : wrapInt64 ((60000000000 * msgLen p : Nat) : Int) =
      ((60000000000 * msgLen p : Nat) : Int) := by
    apply wrapInt64_eq_self <;> omega
  have hcast : (60000000000 : Int) * (msgLen p : Int) = ((60000000000 * msgLen p : Nat) : Int) := by
    push_cast
    ring
  have hdiv : ((60000000000 * msgLen p : Nat) : Int).tdiv 3000 =
      ((60000000000 * msgLen p / 3000 : Nat) : Int) := rfl
  simp only [typeSleepNs, hw1, hcast, hw2, hdiv, maxTypingSleepNs]
  split <;> omega

/-- C1: for every Message event whose sender user-ID equals the stored
`botUserID` or `botUserName`, the loop step is the identity: `Match` is
never invoked (no entry added to `matchCalls`) and no handler runs. -/
theorem c1_self_suppression (st : BotState) (ch u un txt : String)
    (h : st.botUserID = u ∨ st.botUserName = u) :
    processEvent st (.message ch u un txt) = st := by
  rcases h with h | h <;> simp [processEvent, h]

theorem c1_self_suppression_witness :
    processEvent exSt (.message "C1ch" "U123" "someName" "hi there") = exSt :=
  c1_self_suppression exSt "C1ch" "U123" "someName" "hi there" (Or.inl rfl)

/-- C2: `Match` selects the first route in registration order whose kind
and pattern both match: whenever route `A` matches the event, the selected
route lies in `l1 ++ [A]`, i.e. at or before `A`'s position — any route
registered after a matching `A` (such as `B` here) is never selected. -/
theorem c2_first_match_wins (l1 l2 l3 : List Route) (A B : Route)
    (k : EventKind) (t : String) (hA : routeMatches A k t = true) :
    ∃ r, Match (l1 ++ A :: l2 ++ B :: l3) k t = some r ∧ r ∈ l1 ++ [A] := by
  induction l1 with
  | nil =>
      exact ⟨A, by simp [Match, hA], by simp⟩
  | cons r0 rest ih =>
      by_cases h0 : routeMatches r0 k t
      · exact ⟨r0, by simp [Match, h0], by simp⟩
      · obtain ⟨r, hr, hmem⟩ := ih
        refine ⟨r, ?_, ?_⟩
        · simpa [Match, h0] using hr
        · simp at hmem ⊢
          tauto

theorem c2_first_match_wins_witness :
    ∃ r, Match ([] ++ routeHi :: [] ++ routeHiThere :: []) .message "hi there" = some r ∧
      r ∈ [] ++ [routeHi] :=
  c2_first_match_wins [] [] [] routeHi routeHiThere .message "hi there" (by decide)

/-- C3 counterexample: at an attachment payload whose serialization has
length 153722868 the claimed formula — 60 s × length / 3000 clamped to
2000 ms — yields 2000000000 ns, but the int64 product
`time.Minute * time.Duration(msgLen)` wraps negative and the computed
delay is negative, not the clamped formula value. -/
theorem c3_wrap_counterexample :
    typeSleepNs (.attachments 153722868) < 0 ∧
    ((min (60000000000 * msgLen (.attachments 153722868) / 3000) 2000000000 : Nat) : Int) =
      2000000000 ∧
    ¬ typeSleepNs (.attachments 153722868) =
      ((min (60000000000 * msgLen (.attachments 153722868) / 3000) 2000000000 : Nat) : Int) := by
  refine ⟨by decide, by decide, by decide⟩

/-- C3 amended: for every payload whose length keeps the product
60 s × length inside int64 (length ≤ 153722867), the typing delay equals
60 seconds times the payload's length divided by 3000, clamped to 2000 ms
whenever that computed value exceeds 2000 ms; for longer payloads the
int64 product wraps and the formula no longer holds. -/
theorem c3_amended_delay_formula (p : Payload)
    (h : 60000000000 * msgLen p < 2 ^ 63) :
    typeSleepNs p = ((min (60000000000 * msgLen p / 3000) 2000000000 : Nat) : Int) :=
  typeSleepNs_eq_of_no_overflow p h

theorem c3_amended_delay_formula_witness :
    typeSleepNs (.attachments 9000) =
      ((min (60000000000 * msgLen (.attachments 9000) / 3000) 2000000000 : Nat) : Int) :=
  c3_amended_delay_formula (.attachments 9000) (by decide)

/-- C4 counterexample: for an attachment payload whose serialization has
length 9000, the claim predicts a delay of 180000ms clamped to 2000ms
(2000000000 ns, which is indeed `typeSleepNs` of that attachment payload),
but the delay actually slept by `ReplyWithAttachments` with typing enabled
is `typeSleepNs` of the fixed placeholder `"attachment"` — 200ms
(200000000 ns) — not 2000ms. -/
theorem c4_counterexample :
    typeSleepNs (.attachments 9000) = 2000000000 ∧
    replyWithAttachmentsSleepNs 9000 true = 200000000 ∧
    ¬ replyWithAttachmentsSleepNs 9000 true = 2000000000 := by
  refine ⟨rfl, rfl, fun h => ?_⟩
  rw [show replyWithAttachmentsSleepNs 9000 true = 200000000 from rfl] at h
  omega

/-- C4 amended: in `ReplyWithAttachments` with typing enabled, both the
pre-send typing decision and the slept delay use the fixed placeholder
token `"attachment"`; the delay is computed from that placeholder's length
(10), giving 200ms regardless of the attachment payload's serialized size
— the serialized attachment size is never consulted. -/
theorem c4_amended_placeholder_delay (n : Nat) :
    replyWithAttachmentsSleepNs n true = typeSleepNs (.str "attachment") ∧
    replyWithAttachmentsSleepNs n true = 200000000 :=
  ⟨rfl, rfl⟩

/-- C5: when an InvalidAuth event is received by a live loop, the loop
terminates: the final state over the whole remaining stream equals the
state right after processing InvalidAuth, whatever events are still
buffered. -/
theorem c5_invalid_auth_terminates (st : BotState) (rest : List Event)
    (h : st.terminated = false) :
    run st (.invalidAuth :: rest) = processEvent st .invalidAuth := by
  simp only [run, h, if_neg Bool.false_ne_true]
  exact run_of_terminated _ rest rfl

theorem c5_invalid_auth_terminates_witness :
    run exSt (.invalidAuth :: [.message "C" "U9" "nm" "hi there", .other]) =
      processEvent exSt .invalidAuth :=
  c5_invalid_auth_terminates exSt [.message "C" "U9" "nm" "hi there", .other] rfl

/-- C6 counterexample: monotonicity in the text's length fails in the
program's int64 arithmetic: a 100-byte text delays 2000000000 ns (the
cap), while the 153722868-byte all-`a` text wraps the int64 product
negative — the computed delay is below 0, `time.Sleep` sleeps 0 — so a
longer text gets a strictly smaller delay. -/
theorem c6_wrap_counterexample :
    (String.mk (List.replicate 100 'a')).utf8ByteSize ≤
      (String.mk (List.replicate 153722868 'a')).utf8ByteSize ∧
    typeSleepNs (.str (String.mk (List.replicate 100 'a'))) = 2000000000 ∧
    typeSleepNs (.str (String.mk (List.replicate 153722868 'a'))) < 0 ∧
    typeSleptNs (.str (String.mk (List.replicate 153722868 'a'))) = 0 ∧
    ¬ typeSleepNs (.str (String.mk (List.replicate 100 'a'))) ≤
      typeSleepNs (.str (String.mk (List.replicate 153722868 'a'))) := by
  have h1 := utf8ByteSize_replicate 100
  have h2 := utf8ByteSize_replicate 153722868
  refine ⟨?_, ?_, ?_, ?_, ?_⟩
  · rw [h1, h2]
    omega
  · simp only [typeSleepNs, msgLen, h1]
    decide
  · simp only [typeSleepNs, msgLen, h2]
    decide
  · simp only [typeSleptNs, typeSleepNs, msgLen, h2]
    decide
  · simp only [typeSleepNs, msgLen, h1, h2]
    decide

/-- C6 amended: for text payloads whose byte length keeps 60 s × length
inside int64 (length ≤ 153722867), the typing delay is monotonically
non-decreasing in the text's length; for every payload the delay is
bounded above by 2000 ms; and the delay for the empty string is 0.  For
longer texts monotonicity fails: the wrapped duration is negative and the
bot sleeps 0. -/
theorem c6_amended_monotone_bounded_zero :
    (∀ s t : String, s.utf8ByteSize ≤ t.utf8ByteSize →
      60000000000 * t.utf8ByteSize < 2 ^ 63 →
      typeSleepNs (.str s) ≤ typeSleepNs (.str t)) ∧
    (∀ p : Payload, typeSleepNs p ≤ 2000000000) ∧
    typeSleepNs (.str "") = 0 := by
  refine ⟨?_, ?_, by decide⟩
  · intro s t hle hno
    have hs : 60000000000 * msgLen (.str s) < 2 ^ 63 := by
      simp only [msgLen]
      omega
    have ht : 60000000000 * msgLen (.str t) < 2 ^ 63 := by
      simp only [msgLen]
      omega
    rw [typeSleepNs_eq_of_no_overflow _ hs, typeSleepNs_eq_of_no_overflow _ ht]
    simp only [msgLen]
    omega
  · intro p
    simp only [typeSleepNs, maxTypingSleepNs]
    split <;> omega

theorem c6_amended_monotone_bounded_zero_witness :
    typeSleepNs (.str "ab") ≤ typeSleepNs (.str "abcd") :=
  c6_amended_monotone_bounded_zero.1 "ab" "abcd" (by decide) (by decide)

/-- C7: a payload that is neither text nor an attachment list measures
length 0, hence its typing delay is 0, whatever its content. -/
theorem c7_unsupported_zero_delay (content : String) :
    msgLen (.unsupported content) = 0 ∧ typeSleepNs (.unsupported content) = 0 := by
  refine ⟨rfl, ?_⟩
  simp only [typeSleepNs, msgLen]
  decide

/-- C8: a TransportError event only appends a log entry — identity,
termination flag, match calls and handler runs are untouched — and the
loop then continues with the next buffered events from that state. -/
theorem c8_transport_error_continues (st : BotState) (m : String) (rest : List Event)
    (h : st.terminated = false) :
    processEvent st (.transportError m) = { st with log := st.log ++ [.errorLog m] } ∧
    run st (.transportError m :: rest) = run { st with log := st.log ++ [.errorLog m] } rest := by
  refine ⟨rfl, ?_⟩
  have hstep : run st (.transportError m :: rest) =
      run (processEvent st (.transportError m)) rest := by
    simp [run, h]
  rw [hstep]
  rfl

theorem c8_transport_error_continues_witness :
    processEvent exSt (.transportError "boom") =
      { exSt with log := exSt.log ++ [.errorLog "boom"] } ∧
    run exSt (.transportError "boom" :: [.invalidAuth]) =
      run { exSt with log := exSt.log ++ [.errorLog "boom"] } [.invalidAuth] :=
  c8_transport_error_continues exSt "boom" [.invalidAuth] rfl

/-- C9: processing a Connected event stores the event's user ID and user
name into the bot identity fields, overwriting whatever was there (so a
reissued Connected overwrites again), and the `BotUserID` / `BotUserName`
accessors subsequently return exactly those values. -/
theorem c9_connected_stores_identity (st : BotState) (i nm : String) (c : Nat) :
    BotUserID (processEvent st (.connected i nm c)) = i ∧
    BotUserName (processEvent st (.connected i nm c)) = nm :=
  ⟨rfl, rfl⟩

/-- C10: the suppression check reads only the Message event's sender
user-ID field: the step is entirely independent of the sender display-name
field, and routing is skipped (no `Match` invocation recorded) if and only
if that sender-ID field equals the stored `botUserID` or `botUserName`. -/
theorem c10_sender_id_only (st : BotState) (ch u un un' txt : String) :
    processEvent st (.message ch u un txt) = processEvent st (.message ch u un' txt) ∧
    ((processEvent st (.message ch u un txt)).matchCalls = st.matchCalls ↔
      (st.botUserID = u ∨ st.botUserName = u)) := by
  refine ⟨rfl, ?_⟩
  constructor
  · intro h
    by_contra hc
    push_neg at hc
    obtain ⟨h1, h2⟩ := hc
    have hcond : (st.botUserID == u || st.botUserName == u) = false := by
      simp [h1, h2]
    simp only [processEvent, hcond, Bool.false_eq_true, if_false] at h
    rcases hm : Match st.routes .message txt with _ | r <;>
      simp only [hm] at h <;>
    · have := congrArg List.length h
      simp at this
  · intro h
    rw [c1_self_suppression st ch u un txt h]

end Slackbot
